import Mathlib

/-!
Shallow embedding of `src/login-server/server.js` (a Google-OAuth → Shopify
login bridge) and proofs about its request handling.

The server's observable behaviour is a pure function of the incoming request
and of the outcomes of its five outbound calls (Google token verification,
Shopify customer search / create / update, and the Storefront GraphQL
access-token mutation).  Each outbound outcome is passed in as an oracle
value, and the handler additionally returns the list of outbound requests it
issued, so that claims about which calls are made can be stated.
-/

namespace LoginServer

/-- The password literal written to the Shopify customer record, both by
`createCustomer` and by the orchestrator's call to `updateCustomerPassword`
(`"Default@123"` in the source). -/
def defaultPassword : String := "Default@123"

/-- The password literal sent in the `customerAccessTokenCreate` GraphQL
mutation variables (`"12$@565mnbvfethiwpldkao"` in the source). -/
def accessTokenMutationPassword : String := "12$@565mnbvfethiwpldkao"

/-- The claim set extracted from a verified Google ID token
(`ticket.getPayload()`): the fields the server reads. -/
structure Payload where
  email : String
  given_name : String
  family_name : String
deriving Repr, DecidableEq

/-- A Shopify customer record, restricted to the fields the server reads. -/
structure Customer where
  id : Nat
  email : String
  first_name : String
  last_name : String
deriving Repr, DecidableEq

/-- Whether `needle` starts `hay`, on character lists. -/
def charsStartWith : List Char → List Char → Bool
  | [], _ => true
  | _ :: _, [] => false
  | a :: as, b :: bs => a == b && charsStartWith as bs

/-- Whether `needle` occurs somewhere in `hay`, on character lists. -/
def charsInclude (needle : List Char) : List Char → Bool
  | [] => needle.isEmpty
  | b :: bs => charsStartWith needle (b :: bs) || charsInclude needle bs

/-- JavaScript `String.prototype.includes`: substring containment. -/
def strIncludes (hay needle : String) : Bool := charsInclude needle.data hay.data

/-- `response.headers['content-type']?.includes('html')`: the header is
optional, and `includes` is substring containment. -/
def includesHtml : Option String → Bool
  | none => false
  | some s => strIncludes s "html"

/-- Outcome of one `axios` call: either the promise rejected (network
failure or a non-2xx status, both of which `axios` raises as exceptions),
or it resolved with a response carrying a content-type header and a body. -/
inductive ApiResult (α : Type) where
  | thrown
  | response (contentType : Option String) (data : α)
deriving Repr, DecidableEq

/-- `handleApiResponse`: if the content type mentions `html`, return the
`{ error: ... }` marker object (modelled as `none`); otherwise return
`response.data` (modelled as `some data`).  Every caller checks
`if (data.error) return null`, which is exactly the `none` case here. -/
def handleApiResponse {α : Type} (contentType : Option String) (data : α) : Option α :=
  if includesHtml contentType then none else some data

/-- Body of a successful customer-search response:
`{ customers: [...] }` (an absent `customers` key behaves as `[]`, matching
`data.customers?.[0]`). -/
structure CustomerSearchData where
  customers : List Customer
deriving Repr, DecidableEq

/-- `findCustomerByEmail`'s result parsing: a thrown call is caught and
returns `null`; an HTML body returns `null` via `data.error`; otherwise the
first element of `data.customers`, or `null` when there is none. -/
def findCustomerByEmail : ApiResult CustomerSearchData → Option Customer
  | .thrown => none
  | .response ct d =>
    match handleApiResponse ct d with
    | none => none
    | some d2 => d2.customers.head?

/-- The JSON body `POST`ed to `customers.json` by `createCustomer`. -/
structure CreateCustomerRequest where
  first_name : String
  last_name : String
  email : String
  verified_email : Bool
  password : String
  password_confirmation : String
deriving Repr, DecidableEq

/-- The request body `createCustomer` builds from the Google payload. -/
def createCustomerRequestBody (payload : Payload) : CreateCustomerRequest :=
  { first_name := payload.given_name
    last_name := payload.family_name
    email := payload.email
    verified_email := true
    password := "Default@123"
    password_confirmation := "Default@123" }

/-- Body of a successful customer-create response: `{ customer: {...} }`. -/
structure CustomerCreateData where
  customer : Customer
deriving Repr, DecidableEq

/-- `createCustomer`: returns the request body it sends together with its
result — `null` on a thrown call or an HTML body, else `data.customer`. -/
def createCustomer (payload : Payload) (outcome : ApiResult CustomerCreateData) :
    CreateCustomerRequest × Option Customer :=
  let req := createCustomerRequestBody payload
  match outcome with
  | .thrown => (req, none)
  | .response ct d =>
    match handleApiResponse ct d with
    | none => (req, none)
    | some d2 => (req, some d2.customer)

/-- The JSON body `PUT` to `customers/{id}.json` by `updateCustomerPassword`. -/
structure UpdateCustomerRequest where
  id : Nat
  password : String
  password_confirmation : String
deriving Repr, DecidableEq

/-- The request body `updateCustomerPassword` builds. -/
def updateCustomerPasswordRequestBody (customerId : Nat) (newPassword : String) :
    UpdateCustomerRequest :=
  { id := customerId, password := newPassword, password_confirmation := newPassword }

/-- Body of a successful customer-update response: `{ customer: {...} }`. -/
structure CustomerUpdateData where
  customer : Customer
deriving Repr, DecidableEq

/-- `updateCustomerPassword`: returns the request body it sends together with
its result — `null` on a thrown call or an HTML body, else `data.customer`. -/
def updateCustomerPassword (customerId : Nat) (newPassword : String)
    (outcome : ApiResult CustomerUpdateData) : UpdateCustomerRequest × Option Customer :=
  let req := updateCustomerPasswordRequestBody customerId newPassword
  match outcome with
  | .thrown => (req, none)
  | .response ct d =>
    match handleApiResponse ct d with
    | none => (req, none)
    | some d2 => (req, some d2.customer)

/-- `customerAccessToken` object in the GraphQL mutation reply. -/
structure AccessToken where
  accessToken : String
  expiresAt : String
deriving Repr, DecidableEq

/-- One entry of `userErrors` in the GraphQL mutation reply. -/
structure UserError where
  field : List String
  message : String
deriving Repr, DecidableEq

/-- `data.customerAccessTokenCreate` in the GraphQL mutation reply:
`customerAccessToken` is `null` exactly when the mutation failed. -/
structure CustomerAccessTokenCreatePayload where
  customerAccessToken : Option AccessToken
  userErrors : List UserError
deriving Repr, DecidableEq

/-- Top level of the GraphQL mutation reply body. -/
structure GraphQLData where
  customerAccessTokenCreate : CustomerAccessTokenCreatePayload
deriving Repr, DecidableEq

/-- The mutation variables `{ input: { email, password } }` sent by
`createCustomerAccessToken`. -/
structure TokenMutationInput where
  email : String
  password : String
deriving Repr, DecidableEq

/-- `createCustomerAccessToken`: returns the mutation input it sends together
with its result.  A thrown call or an HTML body yields `null`; a non-empty
`userErrors` list yields `null`; a `null` `customerAccessToken` with empty
`userErrors` raises a `TypeError` inside the `try`, which the `catch`
converts to `null`; otherwise the result is `accessToken`. -/
def createCustomerAccessToken (email : String) (outcome : ApiResult GraphQLData) :
    TokenMutationInput × Option String :=
  let input : TokenMutationInput := { email := email, password := "12$@565mnbvfethiwpldkao" }
  match outcome with
  | .thrown => (input, none)
  | .response ct d =>
    match handleApiResponse ct d with
    | none => (input, none)
    | some d2 =>
      let tokenData := d2.customerAccessTokenCreate
      if tokenData.userErrors.length ≠ 0 then (input, none)
      else
        match tokenData.customerAccessToken with
        | some t => (input, some t.accessToken)
        | none => (input, none)

/-- A JavaScript `Error` object as observed by the top-level `catch`:
its `message` and its `stack`.  A stack trace is a runtime artifact; it is
modelled by its first line, `"Error: " ++ message`. -/
structure JsError where
  message : String
  stack : String
deriving Repr, DecidableEq

/-- `new Error(msg)`. -/
def mkError (msg : String) : JsError := { message := msg, stack := "Error: " ++ msg }

/-- The normalized customer object placed in the success response. -/
structure CustomerView where
  id : Nat
  email : String
  firstName : String
  lastName : String
deriving Repr, DecidableEq

/-- The JSON bodies the server can send, with every constant field spelled
out as the source spells it. -/
inductive ResponseBody where
  | missingToken (success : Bool) (error : String)
  | ok (success : Bool) (token : String) (redirectUrl : String) (customer : CustomerView)
  | authError (success : Bool) (error : String) (details : String) (stack : String)
  | notFound (error : String)
deriving Repr, DecidableEq

/-- An HTTP response: status code plus JSON body. -/
structure Response where
  status : Nat
  body : ResponseBody
deriving Repr, DecidableEq

/-- The `token` field of a response body, when the body has one: only the
success body carries a `token` key. -/
def ResponseBody.tokenField : ResponseBody → Option String
  | .ok _ token _ _ => some token
  | _ => none

/-- One outbound request, as recorded in the call trace. -/
inductive Call where
  | verifyIdToken (idToken : String)
  | customerSearch (email : String)
  | customerCreate (body : CreateCustomerRequest)
  | customerUpdate (body : UpdateCustomerRequest)
  | accessTokenCreate (input : TokenMutationInput)
deriving Repr, DecidableEq

/-- The outcomes of the five possible outbound calls for one request,
supplied as oracles (the handler only consults the ones it reaches). -/
structure Outcomes where
  verify : Except JsError Payload
  search : ApiResult CustomerSearchData
  create : ApiResult CustomerCreateData
  update : ApiResult CustomerUpdateData
  tokenCreate : ApiResult GraphQLData
deriving Repr

/-- The generic 500 produced by the endpoint's `catch`:
`{ success: false, error: 'Authentication failed', details, stack }`. -/
def err500 (e : JsError) : Response :=
  { status := 500, body := .authError false "Authentication failed" e.message e.stack }

/-- `!token` in JavaScript: true for an absent or `null` token and for the
empty string (the falsy string). -/
def tokenFalsy : Option String → Bool
  | none => true
  | some s => s.isEmpty

/-- Tail of the endpoint after provisioning: mint the access token and
assemble the reply.  `customer` is whatever the orchestrator's `customer`
variable holds at this point. -/
def finishLogin (storeUrl : String) (payload : Payload) (customer : Customer)
    (o : Outcomes) (calls : List Call) : Response × List Call :=
  let r := createCustomerAccessToken payload.email o.tokenCreate
  let calls2 := calls ++ [Call.accessTokenCreate r.1]
  match r.2 with
  | none => (err500 (mkError "Failed to generate customer access token"), calls2)
  | some customerToken =>
    ({ status := 200
       body := .ok true customerToken (storeUrl ++ "/account")
         { id := customer.id, email := customer.email
           firstName := customer.first_name, lastName := customer.last_name } }, calls2)

/-- The `POST /api/auth/google` handler, as a function of the parsed `token`
body field and the outbound-call outcomes.  Returns the response and the
ordered list of outbound requests issued. -/
def googleAuthRoute (storeUrl : String) (token : Option String) (o : Outcomes) :
    Response × List Call :=
  if tokenFalsy token then
    ({ status := 400, body := .missingToken false "Token is required" }, [])
  else
    let idToken := token.getD ""
    match o.verify with
    | .error e => (err500 e, [Call.verifyIdToken idToken])
    | .ok payload =>
      let pre := [Call.verifyIdToken idToken, Call.customerSearch payload.email]
      match findCustomerByEmail o.search with
      | none =>
        let r := createCustomer payload o.create
        let calls := pre ++ [Call.customerCreate r.1]
        match r.2 with
        | none => (err500 (mkError "Failed to create customer in Shopify"), calls)
        | some customer => finishLogin storeUrl payload customer o calls
      | some customer =>
        let r := updateCustomerPassword customer.id "Default@123" o.update
        let calls := pre ++ [Call.customerUpdate r.1]
        match r.2 with
        | none => (err500 (mkError "Failed to update customer password"), calls)
        | some _ => finishLogin storeUrl payload customer o calls

/-- An incoming HTTP request: method, path, and the `token` field of the
parsed JSON body (absent for bodies without one). -/
structure Request where
  method : String
  path : String
  token : Option String
deriving Repr, DecidableEq

/-- The server's routing: the single registered route
`POST /api/auth/google`, else the catch-all `404 { error: 'Not Found' }`. -/
def server (storeUrl : String) (req : Request) (o : Outcomes) : Response × List Call :=
  if req.method = "POST" ∧ req.path = "/api/auth/google" then
    googleAuthRoute storeUrl req.token o
  else
    ({ status := 404, body := .notFound "Not Found" }, [])

/-- Modelled from the spec: the state of the external commerce REST API
(§6 "Commerce REST API: customer search-by-email, customer create, customer
update"), which is not part of this repository.  It owns the customer
records; `nextId` supplies fresh identifiers for created customers. -/
structure Store where
  customers : List Customer
  nextId : Nat
deriving Repr, DecidableEq

/-- Modelled from the spec: search-by-email returns, as JSON, the customers
whose email equals the query. -/
def Store.search (s : Store) (email : String) : ApiResult CustomerSearchData :=
  .response (some "application/json")
    { customers := s.customers.filter (fun c => c.email == email) }

/-- Modelled from the spec: customer create appends a fresh record built from
the request body and returns it as JSON. -/
def Store.createOutcome (s : Store) (req : CreateCustomerRequest) :
    ApiResult CustomerCreateData × Store :=
  let c : Customer := { id := s.nextId, email := req.email
                        first_name := req.first_name, last_name := req.last_name }
  (.response (some "application/json") { customer := c },
   { customers := s.customers ++ [c], nextId := s.nextId + 1 })

/-- Modelled from the spec: customer update (credential reset) succeeds on a
record whose id exists, returning that record as JSON without changing its
id, email or name, and fails (HTTP error, hence a thrown `axios` call) on an
unknown id. -/
def Store.updateOutcome (s : Store) (req : UpdateCustomerRequest) :
    ApiResult CustomerUpdateData × Store :=
  match s.customers.find? (fun c => c.id == req.id) with
  | some c => (.response (some "application/json") { customer := c }, s)
  | none => (.thrown, s)

/-- One login request executed against the commerce store model: the search,
create and update outcomes are produced by the store (threading its state),
the Google verification succeeds with `payload` (a valid token), and the
GraphQL mutation outcome `tokenR` stays an oracle. -/
def runLogin (storeUrl : String) (idToken : String) (payload : Payload)
    (s : Store) (tokenR : ApiResult GraphQLData) : (Response × List Call) × Store :=
  let searchR := s.search payload.email
  match findCustomerByEmail searchR with
  | none =>
    let r := s.createOutcome (createCustomerRequestBody payload)
    (googleAuthRoute storeUrl (some idToken)
      { verify := .ok payload, search := searchR, create := r.1
        update := .thrown, tokenCreate := tokenR }, r.2)
  | some c =>
    let r := s.updateOutcome (updateCustomerPasswordRequestBody c.id "Default@123")
    (googleAuthRoute storeUrl (some idToken)
      { verify := .ok payload, search := searchR, create := .thrown
        update := r.1, tokenCreate := tokenR }, r.2)

/-! ### Concrete fixtures used to instantiate theorems -/

/-- A sample verified Google payload. -/
def samplePayload : Payload :=
  { email := "jane.doe@example.com", given_name := "Jane", family_name := "Doe" }

/-- A JSON content-type header. -/
def jsonCT : Option String := some "application/json"

/-- A search outcome finding no customer. -/
def emptySearch : ApiResult CustomerSearchData := .response jsonCT { customers := [] }

/-- The customer record Shopify would return for a create of `samplePayload`. -/
def sampleCreated : Customer :=
  { id := 1001, email := "jane.doe@example.com", first_name := "Jane", last_name := "Doe" }

/-- An existing customer record with `samplePayload`'s email. -/
def sampleExisting : Customer :=
  { id := 555, email := "jane.doe@example.com", first_name := "Janet", last_name := "D" }

/-- A search outcome finding `sampleExisting`. -/
def foundSearch : ApiResult CustomerSearchData :=
  .response jsonCT { customers := [sampleExisting] }

/-- A successful GraphQL mutation outcome carrying an access token. -/
def okTokenOutcome : ApiResult GraphQLData :=
  .response jsonCT
    { customerAccessTokenCreate :=
      { customerAccessToken := some { accessToken := "shopify-token", expiresAt := "2026-01-01" }
        userErrors := [] } }

/-- A GraphQL mutation outcome carrying a user error and no token. -/
def userErrTokenOutcome : ApiResult GraphQLData :=
  .response jsonCT
    { customerAccessTokenCreate :=
      { customerAccessToken := none
        userErrors := [{ field := ["input", "password"], message := "Unidentified customer" }] } }

/-- Outcomes for a first-time login that succeeds end to end. -/
def sampleOutcomes : Outcomes :=
  { verify := .ok samplePayload
    search := emptySearch
    create := .response jsonCT { customer := sampleCreated }
    update := .thrown
    tokenCreate := okTokenOutcome }

/-- Outcomes for a returning login that succeeds end to end. -/
def sampleOutcomesFound : Outcomes :=
  { verify := .ok samplePayload
    search := foundSearch
    create := .thrown
    update := .response jsonCT { customer := sampleExisting }
    tokenCreate := okTokenOutcome }

/-- Outcomes for a returning login whose token mutation reports a user error. -/
def sampleOutcomesUserErr : Outcomes :=
  { verify := .ok samplePayload
    search := foundSearch
    create := .thrown
    update := .response jsonCT { customer := sampleExisting }
    tokenCreate := userErrTokenOutcome }

/-! ### Helper lemmas -/

lemma includesHtml_json : includesHtml jsonCT = false := by decide

lemma createCustomer_fst (p : Payload) (o : ApiResult CustomerCreateData) :
    (createCustomer p o).1 = createCustomerRequestBody p := by
  cases o with
  | thrown => rfl
  | response ct d =>
    simp only [createCustomer, handleApiResponse]
    split <;> rfl

lemma updateCustomerPassword_fst (i : Nat) (pw : String) (o : ApiResult CustomerUpdateData) :
    (updateCustomerPassword i pw o).1 = updateCustomerPasswordRequestBody i pw := by
  cases o with
  | thrown => rfl
  | response ct d =>
    simp only [updateCustomerPassword, handleApiResponse]
    split <;> rfl

lemma createCustomerAccessToken_fst (e : String) (o : ApiResult GraphQLData) :
    (createCustomerAccessToken e o).1 =
      { email := e, password := "12$@565mnbvfethiwpldkao" } := by
  cases o with
  | thrown => rfl
  | response ct d =>
    simp only [createCustomerAccessToken, handleApiResponse]
    split
    · rfl
    · split
      · rfl
      · split <;> rfl

lemma findCustomerByEmail_html (ct : Option String) (d : CustomerSearchData)
    (h : includesHtml ct = true) : findCustomerByEmail (.response ct d) = none := by
  simp [findCustomerByEmail, handleApiResponse, h]

lemma findCustomerByEmail_json (d : CustomerSearchData) :
    findCustomerByEmail (.response jsonCT d) = d.customers.head? := by
  simp [findCustomerByEmail, handleApiResponse, includesHtml_json]

/-! ### Claims -/

/-- C1: the spec claims the credential written to the commerce account and
the password sent in the session-token mutation are one shared default
value.  The code violates this: provisioning writes `"Default@123"` (both
the create body and the orchestrator's reset call) while the mutation sends
`"12$@565mnbvfethiwpldkao"`.  On a concrete first-time login both literals
occur in the outbound trace and they differ, so the minted session token can
never match the freshly written credential. -/
theorem provisioning_password_differs_from_mutation_password :
    (createCustomerRequestBody samplePayload).password = "Default@123" ∧
    (updateCustomerPasswordRequestBody sampleExisting.id "Default@123").password
      = "Default@123" ∧
    (createCustomerAccessToken samplePayload.email okTokenOutcome).1.password
      = "12$@565mnbvfethiwpldkao" ∧
    Call.customerCreate (createCustomerRequestBody samplePayload)
      ∈ (googleAuthRoute "https://store" (some "idtok") sampleOutcomes).2 ∧
    Call.customerUpdate (updateCustomerPasswordRequestBody sampleExisting.id "Default@123")
      ∈ (googleAuthRoute "https://store" (some "idtok") sampleOutcomesFound).2 ∧
    Call.accessTokenCreate
        { email := samplePayload.email, password := "12$@565mnbvfethiwpldkao" }
      ∈ (googleAuthRoute "https://store" (some "idtok") sampleOutcomes).2 ∧
    (createCustomerRequestBody samplePayload).password
      ≠ (createCustomerAccessToken samplePayload.email okTokenOutcome).1.password := by
  decide

/-- C2: a `POST /api/auth/google` whose body carries no token (absent,
`null`, or the empty string — exactly the falsy strings) gets a 400 with
`{ success: false, error: 'Token is required' }` and the handler issues no
outbound call. -/
theorem missing_token_yields_400_and_no_calls (storeUrl : String) (token : Option String)
    (o : Outcomes) (h : tokenFalsy token = true) :
    server storeUrl { method := "POST", path := "/api/auth/google", token := token } o
      = ({ status := 400, body := .missingToken false "Token is required" }, []) := by
  simp [server, googleAuthRoute, h]

theorem missing_token_yields_400_and_no_calls_witness :
    tokenFalsy none = true ∧
    server "https://store" { method := "POST", path := "/api/auth/google", token := none }
        sampleOutcomes
      = ({ status := 400, body := .missingToken false "Token is required" }, []) :=
  ⟨rfl, missing_token_yields_400_and_no_calls "https://store" none sampleOutcomes rfl⟩

/-- C8: any request whose method/path pair is not `POST /api/auth/google`
falls through to the catch-all and gets `404 { error: 'Not Found' }`. -/
theorem unmatched_route_yields_404 (storeUrl : String) (req : Request) (o : Outcomes)
    (h : ¬(req.method = "POST" ∧ req.path = "/api/auth/google")) :
    server storeUrl req o = ({ status := 404, body := .notFound "Not Found" }, []) := by
  simp only [server, if_neg h]

theorem unmatched_route_yields_404_witness :
    ¬("GET" = "POST" ∧ "/anything" = "/api/auth/google") ∧
    server "https://store" { method := "GET", path := "/anything", token := none }
        sampleOutcomes
      = ({ status := 404, body := .notFound "Not Found" }, []) :=
  ⟨by decide,
   unmatched_route_yields_404 "https://store"
     { method := "GET", path := "/anything", token := none } sampleOutcomes (by decide)⟩

/-- C3: for a present token whose verification yields `p`, when the lookup
finds no customer, the handler calls customer-create and then the
access-token mutation (in that order, after verify and search), and when
both succeed the response is 200 with `success: true`, the token, the
redirect URL, and the created customer's id, email, first and last name. -/
theorem create_path_success_response (storeUrl idToken : String) (p : Payload)
    (o : Outcomes) (c : Customer) (tk : String)
    (hTok : tokenFalsy (some idToken) = false)
    (hv : o.verify = .ok p)
    (hs : findCustomerByEmail o.search = none)
    (hc : (createCustomer p o.create).2 = some c)
    (ht : (createCustomerAccessToken p.email o.tokenCreate).2 = some tk) :
    googleAuthRoute storeUrl (some idToken) o =
      ({ status := 200
         body := .ok true tk (storeUrl ++ "/account")
           { id := c.id, email := c.email, firstName := c.first_name, lastName := c.last_name } },
       [Call.verifyIdToken idToken, Call.customerSearch p.email,
        Call.customerCreate (createCustomerRequestBody p),
        Call.accessTokenCreate { email := p.email, password := "12$@565mnbvfethiwpldkao" }]) := by
  simp [googleAuthRoute, finishLogin, hTok, hv, hs, hc, ht,
    createCustomer_fst, createCustomerAccessToken_fst]

theorem create_path_success_response_witness :
    tokenFalsy (some "idtok") = false ∧
    sampleOutcomes.verify = .ok samplePayload ∧
    findCustomerByEmail sampleOutcomes.search = none ∧
    (createCustomer samplePayload sampleOutcomes.create).2 = some sampleCreated ∧
    (createCustomerAccessToken samplePayload.email sampleOutcomes.tokenCreate).2
      = some "shopify-token" ∧
    googleAuthRoute "https://store" (some "idtok") sampleOutcomes =
      ({ status := 200
         body := .ok true "shopify-token" "https://store/account"
           { id := sampleCreated.id, email := sampleCreated.email
             firstName := sampleCreated.first_name, lastName := sampleCreated.last_name } },
       [Call.verifyIdToken "idtok", Call.customerSearch samplePayload.email,
        Call.customerCreate (createCustomerRequestBody samplePayload),
        Call.accessTokenCreate
          { email := samplePayload.email, password := "12$@565mnbvfethiwpldkao" }]) :=
  ⟨by decide, rfl, by decide, by decide, by decide,
   create_path_success_response "https://store" "idtok" samplePayload sampleOutcomes
     sampleCreated "shopify-token" (by decide) rfl (by decide) (by decide) (by decide)⟩

/-- C4: for a present token whose verification yields `p`, when the lookup
finds customer `c`, the handler never issues a customer-create call, and
whenever the credential reset succeeds it issues exactly verify, search, the
credential reset on `c.id`, and then the access-token mutation. -/
theorem existing_customer_reset_path_calls (storeUrl idToken : String) (p : Payload)
    (o : Outcomes) (c : Customer)
    (hTok : tokenFalsy (some idToken) = false)
    (hv : o.verify = .ok p)
    (hs : findCustomerByEmail o.search = some c) :
    (∀ b, Call.customerCreate b ∉ (googleAuthRoute storeUrl (some idToken) o).2) ∧
    ((updateCustomerPassword c.id "Default@123" o.update).2 ≠ none →
      (googleAuthRoute storeUrl (some idToken) o).2 =
        [Call.verifyIdToken idToken, Call.customerSearch p.email,
         Call.customerUpdate (updateCustomerPasswordRequestBody c.id "Default@123"),
         Call.accessTokenCreate { email := p.email, password := "12$@565mnbvfethiwpldkao" }]) := by
  simp only [googleAuthRoute, hTok, Bool.false_eq_true, if_false, hv, hs,
    updateCustomerPassword_fst, Option.getD_some]
  constructor
  · intro b
    cases hu : (updateCustomerPassword c.id "Default@123" o.update).2 with
    | none => simp [hu]
    | some c2 =>
      simp only [hu, finishLogin, createCustomerAccessToken_fst]
      cases ht : (createCustomerAccessToken p.email o.tokenCreate).2 <;> simp [ht]
  · intro hne
    cases hu : (updateCustomerPassword c.id "Default@123" o.update).2 with
    | none => exact absurd hu hne
    | some c2 =>
      simp only [hu, finishLogin, createCustomerAccessToken_fst]
      cases ht : (createCustomerAccessToken p.email o.tokenCreate).2 <;> simp [ht]

theorem existing_customer_reset_path_calls_witness :
    tokenFalsy (some "idtok") = false ∧
    sampleOutcomesFound.verify = .ok samplePayload ∧
    findCustomerByEmail sampleOutcomesFound.search = some sampleExisting ∧
    (∀ b, Call.customerCreate b
      ∉ (googleAuthRoute "https://store" (some "idtok") sampleOutcomesFound).2) ∧
    ((updateCustomerPassword sampleExisting.id "Default@123" sampleOutcomesFound.update).2 ≠ none →
      (googleAuthRoute "https://store" (some "idtok") sampleOutcomesFound).2 =
        [Call.verifyIdToken "idtok", Call.customerSearch samplePayload.email,
         Call.customerUpdate (updateCustomerPasswordRequestBody sampleExisting.id "Default@123"),
         Call.accessTokenCreate
           { email := samplePayload.email, password := "12$@565mnbvfethiwpldkao" }]) :=
  ⟨by decide, rfl, by decide,
   (existing_customer_reset_path_calls "https://store" "idtok" samplePayload
      sampleOutcomesFound sampleExisting (by decide) rfl (by decide)).1,
   (existing_customer_reset_path_calls "https://store" "idtok" samplePayload
      sampleOutcomesFound sampleExisting (by decide) rfl (by decide)).2⟩

/-- C10: on the existing-account path, the customer block of the 200 reply is
built from the customer returned by the lookup, before the credential reset;
the reset's own response only gates failure, so two runs whose reset
outcomes both succeed (whatever customer record they return) produce the
same response, whose fields are the lookup result's. -/
theorem reset_path_reply_uses_lookup_result (storeUrl idToken : String) (p : Payload)
    (o : Outcomes) (c : Customer) (u1 u2 : ApiResult CustomerUpdateData) (tk : String)
    (hTok : tokenFalsy (some idToken) = false)
    (hv : o.verify = .ok p)
    (hs : findCustomerByEmail o.search = some c)
    (h1 : (updateCustomerPassword c.id "Default@123" u1).2 ≠ none)
    (h2 : (updateCustomerPassword c.id "Default@123" u2).2 ≠ none)
    (ht : (createCustomerAccessToken p.email o.tokenCreate).2 = some tk) :
    googleAuthRoute storeUrl (some idToken) { o with update := u1 } =
      googleAuthRoute storeUrl (some idToken) { o with update := u2 } ∧
    (googleAuthRoute storeUrl (some idToken) { o with update := u1 }).1 =
      { status := 200
        body := .ok true tk (storeUrl ++ "/account")
          { id := c.id, email := c.email, firstName := c.first_name, lastName := c.last_name } } := by
  cases hu1 : (updateCustomerPassword c.id "Default@123" u1).2 with
  | none => exact absurd hu1 h1
  | some d1 =>
    cases hu2 : (updateCustomerPassword c.id "Default@123" u2).2 with
    | none => exact absurd hu2 h2
    | some d2 =>
      simp [googleAuthRoute, finishLogin, hTok, hv, hs, hu1, hu2, ht,
        updateCustomerPassword_fst, createCustomerAccessToken_fst]

theorem reset_path_reply_uses_lookup_result_witness :
    tokenFalsy (some "idtok") = false ∧
    sampleOutcomesFound.verify = .ok samplePayload ∧
    findCustomerByEmail sampleOutcomesFound.search = some sampleExisting ∧
    (updateCustomerPassword sampleExisting.id "Default@123"
      (.response jsonCT { customer := sampleExisting })).2 ≠ none ∧
    (updateCustomerPassword sampleExisting.id "Default@123"
      (.response jsonCT { customer := sampleCreated })).2 ≠ none ∧
    (createCustomerAccessToken samplePayload.email sampleOutcomesFound.tokenCreate).2
      = some "shopify-token" ∧
    (googleAuthRoute "https://store" (some "idtok")
        { sampleOutcomesFound with update := .response jsonCT { customer := sampleExisting } } =
      googleAuthRoute "https://store" (some "idtok")
        { sampleOutcomesFound with update := .response jsonCT { customer := sampleCreated } } ∧
    (googleAuthRoute "https://store" (some "idtok")
        { sampleOutcomesFound with update := .response jsonCT { customer := sampleExisting } }).1 =
      { status := 200
        body := .ok true "shopify-token" "https://store/account"
          { id := sampleExisting.id, email := sampleExisting.email
            firstName := sampleExisting.first_name, lastName := sampleExisting.last_name } }) :=
  ⟨by decide, rfl, by decide, by decide, by decide, by decide,
   reset_path_reply_uses_lookup_result "https://store" "idtok" samplePayload
     sampleOutcomesFound sampleExisting
     (.response jsonCT { customer := sampleExisting })
     (.response jsonCT { customer := sampleCreated })
     "shopify-token" (by decide) rfl (by decide) (by decide) (by decide) (by decide)⟩

/-- C5: when the lookup call resolves with an HTML content type, the lookup
yields not-found, and the whole request (response and outbound trace alike)
is identical to a run in which the lookup resolved with a JSON body whose
customer list is empty — so the create path is taken. -/
theorem html_lookup_behaves_as_no_account (storeUrl : String) (token : Option String)
    (o : Outcomes) (ct : Option String) (d : CustomerSearchData)
    (h : includesHtml ct = true) :
    findCustomerByEmail (.response ct d) = none ∧
    googleAuthRoute storeUrl token { o with search := .response ct d } =
      googleAuthRoute storeUrl token
        { o with search := .response jsonCT { customers := [] } } := by
  refine ⟨findCustomerByEmail_html ct d h, ?_⟩
  simp only [googleAuthRoute, findCustomerByEmail_html ct d h, findCustomerByEmail_json]
  rfl

theorem html_lookup_behaves_as_no_account_witness :
    includesHtml (some "text/html; charset=utf-8") = true ∧
    (findCustomerByEmail
        (.response (some "text/html; charset=utf-8") { customers := [sampleExisting] }) = none ∧
    googleAuthRoute "https://store" (some "idtok")
        { sampleOutcomes with
            search := .response (some "text/html; charset=utf-8")
              { customers := [sampleExisting] } } =
      googleAuthRoute "https://store" (some "idtok")
        { sampleOutcomes with search := .response jsonCT { customers := [] } }) :=
  ⟨by decide,
   html_lookup_behaves_as_no_account "https://store" (some "idtok") sampleOutcomes
     (some "text/html; charset=utf-8") { customers := [sampleExisting] } (by decide)⟩

/-- C9: a lookup call that throws (network failure or non-2xx status, which
the HTTP client raises and `findCustomerByEmail` catches) is also swallowed
into not-found: the run equals the empty-customer-list run, and once the
token is present and verification yields `p` the create call is issued. -/
theorem thrown_lookup_treated_as_not_found (storeUrl : String) (token : Option String)
    (o : Outcomes) (p : Payload) (hv : o.verify = .ok p) :
    findCustomerByEmail .thrown = none ∧
    googleAuthRoute storeUrl token { o with search := .thrown } =
      googleAuthRoute storeUrl token
        { o with search := .response jsonCT { customers := [] } } ∧
    (tokenFalsy token = false →
      Call.customerCreate (createCustomerRequestBody p)
        ∈ (googleAuthRoute storeUrl token { o with search := .thrown }).2) := by
  refine ⟨rfl, ?_, ?_⟩
  · simp only [googleAuthRoute, findCustomerByEmail, findCustomerByEmail_json]
    rfl
  · intro hTok
    simp only [googleAuthRoute, hTok, Bool.false_eq_true, if_false, hv,
      findCustomerByEmail, createCustomer_fst]
    cases hc : (createCustomer p o.create).2 with
    | none => simp [hc]
    | some c =>
      simp only [hc, finishLogin, createCustomerAccessToken_fst]
      cases ht : (createCustomerAccessToken p.email o.tokenCreate).2 <;> simp [ht]

theorem thrown_lookup_treated_as_not_found_witness :
    sampleOutcomes.verify = .ok samplePayload ∧
    (findCustomerByEmail .thrown = none ∧
    googleAuthRoute "https://store" (some "idtok") { sampleOutcomes with search := .thrown } =
      googleAuthRoute "https://store" (some "idtok")
        { sampleOutcomes with search := .response jsonCT { customers := [] } } ∧
    (tokenFalsy (some "idtok") = false →
      Call.customerCreate (createCustomerRequestBody samplePayload)
        ∈ (googleAuthRoute "https://store" (some "idtok")
            { sampleOutcomes with search := .thrown }).2)) :=
  ⟨rfl,
   thrown_lookup_treated_as_not_found "https://store" (some "idtok") sampleOutcomes
     samplePayload rfl⟩

lemma finishLogin_cases (storeUrl : String) (p : Payload) (c : Customer) (o : Outcomes)
    (calls : List Call) :
    (∃ tk cv, (finishLogin storeUrl p c o calls).1 =
        { status := 200, body := .ok true tk (storeUrl ++ "/account") cv }) ∨
    (∃ d s, (finishLogin storeUrl p c o calls).1 =
        { status := 500, body := .authError false "Authentication failed" d s }) := by
  simp only [finishLogin]
  cases ht : (createCustomerAccessToken p.email o.tokenCreate).2 with
  | none => right; exact ⟨_, _, rfl⟩
  | some tk => left; exact ⟨tk, _, rfl⟩

lemma googleAuthRoute_status_cases (storeUrl : String) (token : Option String) (o : Outcomes)
    (h : tokenFalsy token = false) :
    (∃ tk cv, (googleAuthRoute storeUrl token o).1 =
        { status := 200, body := .ok true tk (storeUrl ++ "/account") cv }) ∨
    (∃ d s, (googleAuthRoute storeUrl token o).1 =
        { status := 500, body := .authError false "Authentication failed" d s }) := by
  simp only [googleAuthRoute, h, Bool.false_eq_true, if_false]
  cases hv : o.verify with
  | error e => right; exact ⟨_, _, rfl⟩
  | ok p =>
    simp only
    cases hs : findCustomerByEmail o.search with
    | none =>
      simp only
      cases hc : (createCustomer p o.create).2 with
      | none => right; exact ⟨_, _, rfl⟩
      | some c => exact finishLogin_cases storeUrl p c o _
    | some c =>
      simp only
      cases hu : (updateCustomerPassword c.id "Default@123" o.update).2 with
      | none => right; exact ⟨_, _, rfl⟩
      | some c2 => exact finishLogin_cases storeUrl p c o _

/-- C6: once the token-presence check passes, the handler either succeeds
with a 200 whose body is the success shape, or fails with a 500 whose body
is exactly `{ success: false, error: 'Authentication failed', details,
stack }` and carries no `token` field; and a session-token mutation reply
bearing any user error makes `createCustomerAccessToken` yield no token, so
it lands in the 500 case. -/
theorem downstream_failure_yields_500_without_token (storeUrl : String)
    (token : Option String) (o : Outcomes) (h : tokenFalsy token = false) :
    (∀ (e : String) (ct : Option String) (d2 : GraphQLData),
      o.tokenCreate = .response ct d2 →
      d2.customerAccessTokenCreate.userErrors ≠ [] →
      (createCustomerAccessToken e o.tokenCreate).2 = none) ∧
    ((∃ tk cv, (googleAuthRoute storeUrl token o).1 =
        { status := 200, body := .ok true tk (storeUrl ++ "/account") cv }) ∨
     (∃ d s, (googleAuthRoute storeUrl token o).1 =
        { status := 500, body := .authError false "Authentication failed" d s })) ∧
    ((googleAuthRoute storeUrl token o).1.status ≠ 200 →
      (googleAuthRoute storeUrl token o).1.status = 500 ∧
      ResponseBody.tokenField (googleAuthRoute storeUrl token o).1.body = none) := by
  refine ⟨?_, googleAuthRoute_status_cases storeUrl token o h, ?_⟩
  · intro e ct d2 htc hne
    rw [htc]
    have hlen : d2.customerAccessTokenCreate.userErrors.length ≠ 0 := by
      intro h0
      exact hne (List.length_eq_zero.mp h0)
    by_cases hh : includesHtml ct = true
    · simp [createCustomerAccessToken, handleApiResponse, hh]
    · simp only [Bool.not_eq_true] at hh
      simp [createCustomerAccessToken, handleApiResponse, hh, hlen]
  · intro hne
    rcases googleAuthRoute_status_cases storeUrl token o h with ⟨tk, cv, hr⟩ | ⟨d, s, hr⟩
    · rw [hr] at hne
      exact absurd rfl hne
    · rw [hr]
      exact ⟨rfl, rfl⟩

theorem downstream_failure_yields_500_without_token_witness :
    tokenFalsy (some "idtok") = false ∧
    ((∀ (e : String) (ct : Option String) (d2 : GraphQLData),
      sampleOutcomesUserErr.tokenCreate = .response ct d2 →
      d2.customerAccessTokenCreate.userErrors ≠ [] →
      (createCustomerAccessToken e sampleOutcomesUserErr.tokenCreate).2 = none) ∧
    ((∃ tk cv, (googleAuthRoute "https://store" (some "idtok") sampleOutcomesUserErr).1 =
        { status := 200, body := .ok true tk ("https://store" ++ "/account") cv }) ∨
     (∃ d s, (googleAuthRoute "https://store" (some "idtok") sampleOutcomesUserErr).1 =
        { status := 500, body := .authError false "Authentication failed" d s })) ∧
    ((googleAuthRoute "https://store" (some "idtok") sampleOutcomesUserErr).1.status ≠ 200 →
      (googleAuthRoute "https://store" (some "idtok") sampleOutcomesUserErr).1.status = 500 ∧
      ResponseBody.tokenField
        (googleAuthRoute "https://store" (some "idtok") sampleOutcomesUserErr).1.body = none)) :=
  ⟨by decide,
   downstream_failure_yields_500_without_token "https://store" (some "idtok")
     sampleOutcomesUserErr (by decide)⟩

lemma findCustomerByEmail_appjson (d : CustomerSearchData) :
    findCustomerByEmail (.response (some "application/json") d) = d.customers.head? := by
  have h : includesHtml (some "application/json") = false := by decide
  simp [findCustomerByEmail, handleApiResponse, h]

lemma findCustomerByEmail_search (s : Store) (e : String) :
    findCustomerByEmail (s.search e) =
      (s.customers.filter (fun c => c.email == e)).head? := by
  simp [Store.search, findCustomerByEmail_appjson]

lemma head?_filter_mem {l : List Customer} {e : String} {c : Customer}
    (h : (l.filter (fun x => x.email == e)).head? = some c) : c ∈ l := by
  have hmem : c ∈ l.filter (fun x => x.email == e) := by
    cases hl : l.filter (fun x => x.email == e) with
    | nil => rw [hl] at h; cases h
    | cons a as =>
      rw [hl] at h
      rw [List.head?_cons] at h
      have hac : a = c := Option.some.inj h
      rw [← hac]
      exact List.mem_cons_self a as
  exact (List.mem_filter.mp hmem).1

lemma find?_id_isSome {l : List Customer} {c : Customer} (hc : c ∈ l) :
    ∃ c0, l.find? (fun x => x.id == c.id) = some c0 := by
  have h : (l.find? (fun x => x.id == c.id)).isSome :=
    List.find?_isSome.mpr ⟨c, hc, by simp⟩
  exact Option.isSome_iff_exists.mp h

lemma runLogin_found (url idToken : String) (p : Payload) (s : Store)
    (t : ApiResult GraphQLData) (c : Customer) (tk : String)
    (hTok : tokenFalsy (some idToken) = false)
    (hc : (s.customers.filter (fun x => x.email == p.email)).head? = some c)
    (ht : (createCustomerAccessToken p.email t).2 = some tk) :
    runLogin url idToken p s t =
      (({ status := 200
          body := .ok true tk (url ++ "/account")
            { id := c.id, email := c.email, firstName := c.first_name, lastName := c.last_name } },
        [Call.verifyIdToken idToken, Call.customerSearch p.email,
         Call.customerUpdate (updateCustomerPasswordRequestBody c.id "Default@123"),
         Call.accessTokenCreate { email := p.email, password := "12$@565mnbvfethiwpldkao" }]),
       s) := by
  obtain ⟨c0, hfind⟩ := find?_id_isSome (head?_filter_mem hc)
  have hjson : includesHtml (some "application/json") = false := by decide
  simp only [runLogin, findCustomerByEmail_search, hc, Store.updateOutcome,
    updateCustomerPasswordRequestBody]
  rw [hfind]
  simp [googleAuthRoute, hTok, findCustomerByEmail_search, hc, finishLogin, ht,
    updateCustomerPassword, updateCustomerPasswordRequestBody, handleApiResponse, hjson,
    createCustomerAccessToken_fst]

lemma runLogin_notFound (url idToken : String) (p : Payload) (s : Store)
    (t : ApiResult GraphQLData) (tk : String)
    (hTok : tokenFalsy (some idToken) = false)
    (hc : s.customers.filter (fun x => x.email == p.email) = [])
    (ht : (createCustomerAccessToken p.email t).2 = some tk) :
    runLogin url idToken p s t =
      (({ status := 200
          body := .ok true tk (url ++ "/account")
            { id := s.nextId, email := p.email
              firstName := p.given_name, lastName := p.family_name } },
        [Call.verifyIdToken idToken, Call.customerSearch p.email,
         Call.customerCreate (createCustomerRequestBody p),
         Call.accessTokenCreate { email := p.email, password := "12$@565mnbvfethiwpldkao" }]),
       { customers := s.customers ++
           [{ id := s.nextId, email := p.email
              first_name := p.given_name, last_name := p.family_name }]
         nextId := s.nextId + 1 }) := by
  have hjson : includesHtml (some "application/json") = false := by decide
  simp only [runLogin, findCustomerByEmail_search, hc, List.head?_nil, Store.createOutcome,
    createCustomerRequestBody]
  simp [googleAuthRoute, hTok, findCustomerByEmail_search, hc, finishLogin, ht,
    createCustomer, createCustomerRequestBody, handleApiResponse, hjson,
    createCustomerAccessToken_fst]

/-- C7: two sequential logins against the commerce-store model with valid
tokens for the same email (and token mutations that succeed) both return
200 carrying a token; the second run issues a credential reset and never a
customer create, because the customer created or found by the first run is
found by the second lookup. -/
theorem login_twice_idempotent (url idToken : String) (p1 p2 : Payload) (s : Store)
    (t1 t2 : ApiResult GraphQLData) (tkA tkB : String)
    (hTok : tokenFalsy (some idToken) = false)
    (he : p2.email = p1.email)
    (h1 : (createCustomerAccessToken p1.email t1).2 = some tkA)
    (h2 : (createCustomerAccessToken p2.email t2).2 = some tkB) :
    (runLogin url idToken p1 s t1).1.1.status = 200 ∧
    ResponseBody.tokenField (runLogin url idToken p1 s t1).1.1.body = some tkA ∧
    (runLogin url idToken p2 (runLogin url idToken p1 s t1).2 t2).1.1.status = 200 ∧
    ResponseBody.tokenField
      (runLogin url idToken p2 (runLogin url idToken p1 s t1).2 t2).1.1.body = some tkB ∧
    (∃ b, Call.customerUpdate b
      ∈ (runLogin url idToken p2 (runLogin url idToken p1 s t1).2 t2).1.2) ∧
    (∀ b, Call.customerCreate b
      ∉ (runLogin url idToken p2 (runLogin url idToken p1 s t1).2 t2).1.2) := by
  cases hfil : s.customers.filter (fun x => x.email == p1.email) with
  | nil =>
    have r1 := runLogin_notFound url idToken p1 s t1 tkA hTok hfil h1
    have hfil2 :
        (({ customers := s.customers ++
              [{ id := s.nextId, email := p1.email
                 first_name := p1.given_name, last_name := p1.family_name }]
            nextId := s.nextId + 1 } : Store).customers.filter
          (fun x => x.email == p2.email)) =
        [{ id := s.nextId, email := p1.email
           first_name := p1.given_name, last_name := p1.family_name }] := by
      simp only [he, List.filter_append, hfil]
      simp
    have hc2 :
        (({ customers := s.customers ++
              [{ id := s.nextId, email := p1.email
                 first_name := p1.given_name, last_name := p1.family_name }]
            nextId := s.nextId + 1 } : Store).customers.filter
          (fun x => x.email == p2.email)).head? =
        some { id := s.nextId, email := p1.email
               first_name := p1.given_name, last_name := p1.family_name } := by
      rw [hfil2]; rfl
    have r2 := runLogin_found url idToken p2 _ t2 _ tkB hTok hc2 h2
    rw [r1]
    simp only at r2 ⊢
    rw [r2]
    simp [ResponseBody.tokenField]
  | cons a as =>
    have hc1 : (s.customers.filter (fun x => x.email == p1.email)).head? = some a := by
      rw [hfil]; rfl
    have r1 := runLogin_found url idToken p1 s t1 a tkA hTok hc1 h1
    have hc2 : (s.customers.filter (fun x => x.email == p2.email)).head? = some a := by
      simp only [he]; exact hc1
    have r2 := runLogin_found url idToken p2 s t2 a tkB hTok hc2 h2
    rw [r1]
    simp only at r2 ⊢
    rw [r2]
    simp [ResponseBody.tokenField]

theorem login_twice_idempotent_witness :
    tokenFalsy (some "idtok") = false ∧
    samplePayload.email = samplePayload.email ∧
    (createCustomerAccessToken samplePayload.email okTokenOutcome).2 = some "shopify-token" ∧
    ((runLogin "https://store" "idtok" samplePayload
        { customers := [], nextId := 1 } okTokenOutcome).1.1.status = 200 ∧
    ResponseBody.tokenField
      (runLogin "https://store" "idtok" samplePayload
        { customers := [], nextId := 1 } okTokenOutcome).1.1.body = some "shopify-token" ∧
    (runLogin "https://store" "idtok" samplePayload
      (runLogin "https://store" "idtok" samplePayload
        { customers := [], nextId := 1 } okTokenOutcome).2 okTokenOutcome).1.1.status = 200 ∧
    ResponseBody.tokenField
      (runLogin "https://store" "idtok" samplePayload
        (runLogin "https://store" "idtok" samplePayload
          { customers := [], nextId := 1 } okTokenOutcome).2 okTokenOutcome).1.1.body
      = some "shopify-token" ∧
    (∃ b, Call.customerUpdate b
      ∈ (runLogin "https://store" "idtok" samplePayload
          (runLogin "https://store" "idtok" samplePayload
            { customers := [], nextId := 1 } okTokenOutcome).2 okTokenOutcome).1.2) ∧
    (∀ b, Call.customerCreate b
      ∉ (runLogin "https://store" "idtok" samplePayload
          (runLogin "https://store" "idtok" samplePayload
            { customers := [], nextId := 1 } okTokenOutcome).2 okTokenOutcome).1.2)) :=
  ⟨by decide, rfl, by decide,
   login_twice_idempotent "https://store" "idtok" samplePayload samplePayload
     { customers := [], nextId := 1 } okTokenOutcome okTokenOutcome
     "shopify-token" "shopify-token" (by decide) rfl (by decide) (by decide)⟩

end LoginServer
